import Mathlib

/-!
Verification of the conversation-practice engine: a shallow embedding of the
session transaction controller (`api/services/chat_service.py`), the flow-state
table and stepping logic (`api/services/conversation_service.py`), the
suggestion generator (`api/services/generate_suggestions.py`) and the level-1
intro scene (`api/levels/level_1.py`), together with theorems settling the
spec's claims about them.

External collaborators (the LLM generation provider, the durable store) are
modelled as explicit outcome parameters of type `Except PyError _`, following
the spec's boundary description; all mutation of the conversation record is
modelled by explicit state passing.
-/

/-- The Python exceptions the embedded code can raise.  `staleApplyError` is
not raised anywhere in the code: the constructor exists only because the spec
names a *StaleApplyError*; it is modelled from the spec so that theorems can
compare the error the code actually raises against the one the spec claims. -/
inductive PyError where
  | assertionError
  | indexError
  | keyError
  | valueError
  | typeError
  | generationFailure
  | staleApplyError
deriving DecidableEq, Repr

/-- Feedback content (`api/schemas/chat.py` is not in the sources; the fields
`title` and `body` are those read by `chat_service.py`, e.g.
`feedback_original.body`). -/
structure Feedback where
  title : String
  body : String
deriving DecidableEq, Repr

/-- A suggested message (`api.schemas.chat.Suggestion`; fields as constructed
throughout `chat_service.py` and `generate_suggestions.py`). -/
structure Suggestion where
  message : String
  problem : Option String := none
  objective : Option String := none
  feedback : Option Feedback := none
deriving DecidableEq, Repr

/-- An entry of `ChatData.messages`: either a `ChatMessage` or an
`InChatFeedback` (`chat_service.py` appends both to `chat.messages`). -/
inductive ChatMsg where
  | chatMessage (sender : String) (content : String) (createdAt : Nat)
  | inChatFeedback (feedback : Feedback) (alternative : String)
      (alternativeFeedback : String) (createdAt : Nat)
deriving DecidableEq, Repr

/-- The mutable conversation record (`ChatData`).  The schema module is not in
the sources; the fields are exactly those read and written by
`chat_service.py`.  Event payloads are elided: `events` keeps the event names
appended by the code, timestamps are `Nat`. -/
structure ChatData where
  agent : String
  lastUpdated : Nat
  suggestionGeneration : String
  suggestions : Option (List Suggestion)
  messages : List ChatMsg
  state : String
  objectivesUsed : List String
  agentTyping : Bool
  unread : Bool
  loadingFeedback : Bool
  generatingSuggestions : Nat
  bestSuggestion : Option Suggestion
  currentProblem : Option String
  checkpointRate : Bool
  events : List String
deriving DecidableEq, Repr

/-- `ChatState` (`chat_service.py` lines 66-94): the live record plus the
mutual-exclusion lock and the change-notification signal (`asyncio.Event`,
modelled as the boolean "set" flag). -/
structure ChatState where
  chat : ChatData
  locked : Bool
  changed : Bool
deriving DecidableEq, Repr

/-- `ChatState.mark_changed`: sets the change signal. -/
def ChatState.markChanged (s : ChatState) : ChatState :=
  { s with changed := true }

/-- `ChatState.wait_for_change`: `await self._changed.wait()` completes only
when the signal is set (`none` models the caller staying suspended), and the
signal is cleared on wake (`self._changed.clear()`). -/
def ChatState.waitForChange (s : ChatState) : Option ChatState :=
  if s.changed then some { s with changed := false } else none

/-- The events a transaction body performs, in order.  A body can await a
generation call, call `mark_changed`, or sleep; it cannot touch the lock
(the lock is managed by `ChatState.transaction` around it). -/
inductive TxEv where
  | markChanged
  | generate (callee : String)
  | sleep
deriving DecidableEq, Repr

/-- What a transaction body produced: the record as mutated so far, the
exception it raised (if any), the events it performed, whether it returned
early from inside the `async with` block, and the Python return value
relevant to the callers modelled here (`response_content`). -/
structure TxOut where
  chat : ChatData
  error : Option PyError := none
  events : List TxEv := []
  early : Bool := false
  content : Option String := none
deriving Repr

/-- `ChatState.transaction` (lines 83-91): `async with self._lock` acquires
the lock, runs the body, and releases the lock on every exit path; the
`finally` then calls `self.mark_changed()` unconditionally.  Any exception of
the body propagates (`error` is passed through), and the record is whatever
the body left behind — there is no rollback. -/
def ChatState.transaction (s : ChatState) (body : ChatData → TxOut) :
    ChatState × TxOut :=
  let o := body s.chat
  ({ chat := o.chat, locked := false, changed := true }, o)

/-- The observable event trace of one session operation: lock transitions and
the body's events. -/
inductive Ev where
  | acquire
  | release
  | markChanged
  | generate (callee : String)
  | sleep
deriving DecidableEq, Repr

/-- A body event, as it appears in the full trace. -/
def TxEv.toEv : TxEv → Ev
  | .markChanged => .markChanged
  | .generate callee => .generate callee
  | .sleep => .sleep

/-- The full trace of one `transaction` call: acquire, the body's events,
release (by `async with` on any exit), then the `finally`'s `mark_changed`. -/
def txTrace (o : TxOut) : List Ev :=
  Ev.acquire :: o.events.map TxEv.toEv ++ [Ev.release, Ev.markChanged]

/-- For each `generate` event of a trace, whether the lock was held when the
call was issued (scanning the trace with the given initial lock state). -/
def genHeldFlags : List Ev → Bool → List Bool
  | [], _ => []
  | .acquire :: rest, _ => genHeldFlags rest true
  | .release :: rest, _ => genHeldFlags rest false
  | .generate _ :: rest, held => held :: genHeldFlags rest held
  | .markChanged :: rest, held => genHeldFlags rest held
  | .sleep :: rest, held => genHeldFlags rest held

/-- `generate_suggestions.objectives` (two entries are commented out in the
source). -/
def objectives : List String := ["yes-no-question"]

/-- The `match (chat.state, user.options.feedback_mode)` of
`_generate_agent_message` (lines 104-120) computing `next_state`; `none`
models the fall-through in which `assert next_state is not None` fails. -/
def computeNextState (state feedbackMode : String) (messagesLen : Nat) :
    Option String :=
  if state = "no-objective" then
    some (if messagesLen > 4 then
            (if objectives.length > 0 then "objective" else "no-objective")
          else "no-objective")
  else if (state = "objective" ∨ state = "objective-blunt") ∧
      feedbackMode = "on-suggestion" then
    some "no-objective"
  else if (state = "objective" ∨ state = "objective-blunt") ∧
      feedbackMode = "on-submit" then
    some "react"
  else if state = "react" then
    some "no-objective"
  else none

/-- The guard of the "blunt" preemption branch (lines 124-129). -/
def bluntCond (state : String) (objectivesUsed : List String)
    (messagesLen : Nat) : Prop :=
  state = "no-objective" ∧ "blunt" ∉ objectivesUsed ∧ messagesLen > 4 ∧
    objectivesUsed.length ≥ objectives.length

instance (state : String) (objectivesUsed : List String) (messagesLen : Nat) :
    Decidable (bluntCond state objectivesUsed messagesLen) := by
  unfold bluntCond; infer_instance

/-- Lines 104-131 of `_generate_agent_message`: the `next_state` match, the
`assert`, and the blunt-preemption override of `(objective, next_state)`. -/
def agentPlan (state feedbackMode : String) (messagesLen : Nat)
    (objectivesUsed : List String) (objective : Option String) :
    Option (Option String × String) :=
  match computeNextState state feedbackMode messagesLen with
  | none => none
  | some next =>
    if bluntCond state objectivesUsed messagesLen then
      some (some "blunt-initial", "objective-blunt")
    else
      some (objective, next)

/-- Python truthiness of `objective` in `if not objective:` (line 166): `None`
and the empty string are falsy. -/
def pyFalsy : Option String → Bool
  | none => true
  | some s => s.isEmpty

/-- The asserts of lines 172-173: `chat.messages[-2]` raises `IndexError` when
fewer than two messages exist, then both of the last two messages must be
`ChatMessage`s. -/
def checkReactAsserts (messages : List ChatMsg) : Option PyError :=
  match messages.reverse with
  | [] => some .indexError
  | [_] => some .indexError
  | last :: secondToLast :: _ =>
    match secondToLast, last with
    | .chatMessage _ _ _, .chatMessage _ _ _ => none
    | _, _ => some .assertionError

/-- Outcomes of the external generation calls awaited by
`_generate_agent_message` (generation is a collaborator boundary). -/
structure AgentGenOutcomes where
  agentMessage : Except PyError String
  feedbackOriginal : Except PyError Feedback
  followUp : Except PyError String
  feedbackAlternative : Except PyError String

/-- The body of `_generate_agent_message` (lines 100-265): everything inside
`async with chat_state.transaction()`, with the record threaded explicitly and
each awaited generation call recorded as a `generate` event. -/
def generateAgentMessageBody (feedbackMode : String) (objective : Option String)
    (g : AgentGenOutcomes) (now : Nat) (c0 : ChatData) : TxOut :=
  let c := { c0 with agentTyping := true }
  let evs : List TxEv := [.markChanged]
  match agentPlan c.state feedbackMode c.messages.length c.objectivesUsed
      objective with
  | none => { chat := c, error := some .assertionError, events := evs }
  | some (objective, next) =>
    let evs := evs ++ [TxEv.generate "chat_generation.generate_agent_message"]
    match g.agentMessage with
    | .error _ => { chat := c, error := some .generationFailure, events := evs }
    | .ok responseContent =>
      let evs := evs ++ [TxEv.sleep]
      let c := { c with
        messages := c.messages ++ [.chatMessage c.agent responseContent now],
        lastUpdated := now,
        agentTyping := false,
        unread := true,
        loadingFeedback := (next == "react") && objective.isSome,
        state := next,
        events := c.events ++ ["agent-message"] }
      let evs := evs ++ [TxEv.markChanged]
      if c.state = "react" then
        if pyFalsy objective then
          { chat := { c with state := "objective" }, events := evs,
            early := true, content := some responseContent }
        else
          let c := { c with loadingFeedback := true }
          let evs := evs ++ [TxEv.markChanged]
          match checkReactAsserts c.messages with
          | some e => { chat := c, error := some e, events := evs, early := true }
          | none =>
            match c.currentProblem, c.bestSuggestion with
            | some problem, some best =>
              let alternativeMessage := best.message
              let evs := evs ++
                [TxEv.generate "generate_feedback.explain_message",
                 TxEv.generate "message_generation.generate_message"]
              match g.feedbackOriginal, g.followUp with
              | .ok feedbackOriginal, .ok followUp =>
                let evs := evs ++
                  [TxEv.generate "generate_feedback.explain_message_alternative"]
                match g.feedbackAlternative with
                | .ok feedbackAlternative =>
                  let suggestions : List Suggestion :=
                    [{ message := followUp, objective := objective,
                       problem := some problem }]
                  let c := { c with
                    messages := c.messages ++
                      [.inChatFeedback feedbackOriginal alternativeMessage
                        feedbackAlternative now],
                    suggestions := some suggestions,
                    loadingFeedback := false,
                    events := c.events ++
                      ["feedback-generated", "suggested-messages"],
                    state := "react" }
                  { chat := c, events := evs, early := true,
                    content := some responseContent }
                | .error _ =>
                  { chat := c, error := some .generationFailure, events := evs,
                    early := true }
              | _, _ =>
                { chat := c, error := some .generationFailure, events := evs,
                  early := true }
            | _, _ =>
              { chat := c, error := some .assertionError, events := evs,
                early := true }
      else
        { chat := c, events := evs, content := some responseContent }

/-- Outcomes of the external calls awaited by `_suggest_messages`. -/
structure SuggestGenOutcomes where
  baseMessage : Except PyError String
  variations : Except PyError (String × List Suggestion)
  variationsBlunt : Except PyError (String × List Suggestion)

/-- The body of `_suggest_messages` (lines 272-346): everything inside
`async with chat_state.transaction()`.  In the final `else` branch the source
calls `generate_message_variations_ok` with five arguments although it takes
two, so the call raises `TypeError` before any generation is issued. -/
def suggestMessagesBody (g : SuggestGenOutcomes) (promptMessage : String)
    (c0 : ChatData) : TxOut :=
  let c := { c0 with
    generatingSuggestions := 3,
    events := c0.events ++ ["suggestion-request"] }
  let evs : List TxEv := [.markChanged]
  let cont := fun (evs : List TxEv) (c : ChatData) (_baseMessage : String) =>
    if c.state = "objective" then
      let evs := evs ++
        [TxEv.generate "generate_suggestions.generate_message_variations"]
      match g.variations with
      | .error _ =>
        { chat := c,
          error := some PyError.generationFailure,
          events := evs : TxOut }
      | .ok (objective, suggestions) =>
        let c := { c with objectivesUsed := c.objectivesUsed ++ [objective] }
        let c := { c with
          suggestions := some suggestions,
          generatingSuggestions := 0,
          events := c.events ++ ["suggestions-generated"] }
        { chat := c, events := evs }
    else if c.state = "objective-blunt" then
      let evs := evs ++
        [TxEv.generate "generate_suggestions.generate_message_variations_blunt"]
      match g.variationsBlunt with
      | .error _ =>
        { chat := c,
          error := some PyError.generationFailure,
          events := evs : TxOut }
      | .ok (_objective, suggestions) =>
        let c := { c with objectivesUsed := c.objectivesUsed ++ ["blunt"] }
        let c := { c with
          suggestions := some suggestions,
          generatingSuggestions := 0,
          events := c.events ++ ["suggestions-generated"] }
        { chat := c, events := evs }
    else
      { chat := c, error := some PyError.typeError, events := evs : TxOut }
  if c.suggestionGeneration = "random" then
    let evs := evs ++ [TxEv.generate "message_generation.generate_message"]
    match g.baseMessage with
    | .error _ =>
      { chat := c, error := some PyError.generationFailure, events := evs }
    | .ok base => cont evs c base
  else
    cont evs c promptMessage

/-- `_suggest_messages` (lines 271-348): one transaction around
`suggestMessagesBody`, with the full event trace. -/
def suggestMessages (g : SuggestGenOutcomes) (promptMessage : String)
    (s : ChatState) : ChatState × Option PyError × List Ev :=
  let (s', o) := s.transaction (suggestMessagesBody g promptMessage)
  (s', o.error, txTrace o)

/-- `_generate_agent_message` (lines 97-268): one transaction around
`generateAgentMessageBody`; when the body neither raised nor returned early
and the record's `suggestion_generation` is `"random"`, `_suggest_messages`
runs afterwards with the generated content as the prompt message. -/
def generateAgentMessage (feedbackMode : String) (objective : Option String)
    (g : AgentGenOutcomes) (gs : SuggestGenOutcomes) (now : Nat)
    (s : ChatState) : ChatState × Option PyError × List Ev :=
  let (s', o) := s.transaction (generateAgentMessageBody feedbackMode objective g now)
  match o.error with
  | some e => (s', some e, txTrace o)
  | none =>
    if o.early then (s', none, txTrace o)
    else if s'.chat.suggestionGeneration = "random" then
      match o.content with
      | some content =>
        let (s'', e2, t2) := suggestMessages gs content s'
        (s'', e2, txTrace o ++ t2)
      | none => (s', none, txTrace o)
    else (s', none, txTrace o)

/-- The body of `_send_message` (lines 357-400): everything inside
`async with chat_state.transaction()`.  Both the `assert chat.suggestions is
not None` guard and the `chat.suggestions[index]` lookup run before any field
of the record is written. -/
def sendMessageBody (userName : String) (now : Nat) (index : Nat)
    (c : ChatData) : TxOut :=
  match c.suggestions with
  | none => { chat := c, error := some .assertionError }
  | some suggestions =>
    match suggestions[index]? with
    | none => { chat := c, error := some .indexError }
    | some suggestion =>
      let c := { c with state :=
        if ¬(suggestion.problem = none ∧
              (c.state = "objective" ∨ c.state = "objective-blunt"))
        then c.state else "react" }
      let c :=
        if suggestion.problem = none ∧ c.state ≠ "objective" ∧
            c.objectivesUsed.length > objectives.length then
          { c with checkpointRate := true, objectivesUsed := [] }
        else c
      match suggestions[0]? with
      | none => { chat := c, error := some .indexError }
      | some best =>
        let c := { c with
          messages := c.messages ++ [.chatMessage userName suggestion.message now],
          lastUpdated := now,
          bestSuggestion := some best,
          suggestions := none,
          events := c.events ++ ["user-message"],
          currentProblem := suggestion.problem }
        { chat := c }

/-- `_send_message` as one transaction around `sendMessageBody`. -/
def sendMessage (userName : String) (now : Nat) (index : Nat) (s : ChatState) :
    ChatState × Option PyError × List Ev :=
  let (s', o) := s.transaction (sendMessageBody userName now index)
  (s', o.error, txTrace o)

/-- One option of an `"options"` flow state of `conversation_service.py`:
a prompt key and the successor state name. -/
structure FlowOption where
  prompt : String
  next : String
deriving DecidableEq, Repr

/-- A value of the `FLOW_STATES` table: either an `"options"` entry or a
feedback entry carrying its own `"prompt"` and `"next"` keys. -/
inductive FlowEntry where
  | options (opts : List FlowOption)
  | feedbackEntry (prompt : String) (next : String)
deriving DecidableEq, Repr

/-- `FLOW_STATES` (`conversation_service.py` lines 130-164). -/
def FLOW_STATES : List (String × FlowEntry) :=
  [("np_normal", .options
      [⟨"np_normal", "ap_normal"⟩,
       ⟨"np_figurative", "ap_figurative_misunderstood"⟩,
       ⟨"np_figurative_2", "ap_figurative_misunderstood"⟩]),
   ("ap_normal", .options [⟨"ap_normal", "np_normal"⟩]),
   ("ap_figurative_misunderstood", .options
      [⟨"ap_figurative_misunderstood", "feedback_figurative_misunderstood"⟩]),
   ("np_clarify", .options [⟨"np_clarify", "ap_normal"⟩]),
   ("feedback_figurative_misunderstood",
      .feedbackEntry "feedback_figurative_misunderstood" "np_normal"),
   ("feedback_figurative_understood",
      .feedbackEntry "feedback_figurative_understood" "np_normal")]

/-- `PROMPTS` (lines 166-204), texts exactly as the adjacent Python string
literals concatenate. -/
def PROMPTS : List (String × String) :=
  [("np_normal",
    "Do not use any figurative language in your next message. Keep your " ++
    "message straightforward and literal. Example: 'I'm going to the store. " ++
    "Do you need anything?'"),
   ("np_figurative",
    "Your next message is figurative and metaphorical. You use language that " ++
    "is not literal and does not mean exactly what it says. Your message is " ++
    "intended to be interpreted in a non-literal way. Example: 'Let's hit the " ++
    "books.'"),
   ("np_figurative_2",
    "Your next message is mostly literal, but includes a hint of figurative " ++
    "language. The message is mostly straightforward, but there is also a " ++
    "figurative element that could be misinterpreted. Example: 'It's so hot, " ++
    "It feels like 1000 degrees outside.'"),
   ("ap_normal", ""),
   ("ap_figurative_misunderstood",
    "You are responding to a figurative and metaphorical message. You " ++
    "misunderstand the figurative language and your next message will" ++
    "confidently interpret the message literally, missing the intended " ++
    "meaning. The response should be literal and direct, only addressing " ++
    "the figurative meaning and ignoring the intended message." ++
    "Example: NP: 'Let's hit the books' -> AP: 'Why would you want to " ++
    "hit books? That would damage them.'"),
   ("feedback_figurative_misunderstood",
    "The autistic individual just misunderstood a figurative message. The user " ++
    "could have been more considerate and provided more context to help the " ++
    "autistic individual understand the intended meaning of the message."),
   ("feedback_figurative_understood",
    "The autistic individual successfully interpreted a figurative message. " ++
    "The user could have been more considerate and provided more context and " ++
    "clarity in their communication to avoid any potential misunderstandings.")]

/-- Dictionary lookup on an association list (a Python `dict` access that can
raise `KeyError` is a `none` result here). -/
def lookupTable {α : Type} (table : List (String × α)) (key : String) :
    Option α :=
  (table.find? (fun e => e.1 == key)).map (·.2)

/-- `state_str[: state_str.index("_")]` (line 613): the text before the first
underscore; `none` models the `ValueError` of `str.index` when there is no
underscore. -/
def stateType (s : String) : Option String :=
  if '_' ∈ s.toList then
    some ⟨s.toList.takeWhile (fun c => c ≠ '_')⟩
  else none

/-- The `PROMPTS` keys `progress_conversation` (lines 594-664) looks up when
stepping the given state: for an `np` state every option's prompt (each is
generated), for an `ap` state every option `random.choice` may pick, for a
`feedback` state none (that branch never reads `PROMPTS`).  Errors mirror the
code: an unknown state raises `KeyError` at `FLOW_STATES[state_str]`, a state
without underscore raises `ValueError`, an entry without an `"options"` key
raises `KeyError`, and any other type prefix raises `ValueError`. -/
def promptKeysOf (s : String) : Except PyError (List String) :=
  match lookupTable FLOW_STATES s with
  | none => .error .keyError
  | some entry =>
    match stateType s with
    | none => .error .valueError
    | some ty =>
      if ty = "np" ∨ ty = "ap" then
        match entry with
        | .options opts => .ok (opts.map FlowOption.prompt)
        | .feedbackEntry _ _ => .error .keyError
      else if ty = "feedback" then .ok []
      else .error .valueError

/-- Whether stepping the given state never fails: the state resolves in
`FLOW_STATES` and every prompt key the step may reference resolves in
`PROMPTS`. -/
def resolvesAllPrompts (s : String) : Bool :=
  match promptKeysOf s with
  | .error _ => false
  | .ok keys => keys.all (fun k => (lookupTable PROMPTS k).isSome)

/-- The declared node set: the keys of `FLOW_STATES`. -/
def flowKeys : List String := FLOW_STATES.map Prod.fst

/-- Every `"next"` state named in the table: the options' successors and the
feedback entries' `"next"` fields. -/
def declaredNexts : List String :=
  FLOW_STATES.flatMap (fun e =>
    match e.2 with
    | .options opts => opts.map FlowOption.next
    | .feedbackEntry _ next => [next])

/-- The states `progress_conversation` can move to from the given state: for
an options entry any option's `"next"` (chosen by the user or by
`random.choice`); for a feedback entry the hard-coded `"np_normal"` /
`"ap_normal"` targets of lines 651-660. -/
def codeSuccessors (s : String) : List String :=
  match lookupTable FLOW_STATES s with
  | none => []
  | some (.options opts) => opts.map FlowOption.next
  | some (.feedbackEntry _ _) => ["np_normal", "ap_normal"]

/-- States reachable by `progress_conversation` from the initial state
`"np_normal"` set by `create_conversation` (line 581). -/
inductive FlowReachable : String → Prop where
  | init : FlowReachable "np_normal"
  | step {s t : String} : FlowReachable s → t ∈ codeSuccessors s →
      FlowReachable t

/-- The node identifiers of the level-1 intro scene
(`levels/level_1.py`, `_IntroStateId`). -/
inductive IntroStateId where
  | user_greet
  | agent_greet
deriving DecidableEq, Repr

/-- `_IntroData`: the scene-local position, the node id it stores. -/
structure IntroData where
  state : IntroStateId
deriving DecidableEq, Repr

/-- A user option of a scene state (`states.UserOption` as used by
`_IntroStates.next`: authored instructions and the successor position, `none`
for the scene-end sentinel). -/
structure SceneUserOption (δ : Type) where
  instructions : String
  next : Option δ
deriving DecidableEq, Repr

/-- The `State` a scene's transition returns, as used by `_IntroStates.next`:
a user step with options or an agent step with instructions and successor. -/
inductive SceneStep (δ : Type) where
  | userState (options : List (SceneUserOption δ))
  | agentState (instructions : String) (next : Option δ)
deriving DecidableEq, Repr

/-- `_IntroStates.init` (line 36-37). -/
def introInit : IntroData := ⟨.user_greet⟩

/-- `_IntroStates.next` (lines 39-60). -/
def introNext (data : IntroData) : SceneStep IntroData :=
  match data.state with
  | .user_greet =>
    .userState
      [{ instructions :=
           "I will start the conversation with a " ++
           "greeting and mention that I noticed the person is doing " ++
           "something interesting. I will ask if they can tell me " ++
           "more about it while avoiding asking any specific " ++
           "questions yet.",
         next := some ⟨.agent_greet⟩ }]
  | .agent_greet =>
    .agentState
      ("I will greet the person and say that I would be " ++
       "happy to tell them more about what I'm doing. I will invite " ++
       "them to ask questions without providing any specifics yet.")
      none

/-- A message variation as parsed from the generator
(`generate_suggestions.MessageVariation`). -/
structure MessageVariation where
  problem : Option String
  content : String
deriving DecidableEq, Repr

/-- `_generate_message_variations` (lines 391-402) after the external
`llm.generate` call returned `variations`: `variations[0].problem = None`
raises `IndexError` on an empty list, otherwise the first variation's
`problem` is overwritten with `None` and the same list is returned. -/
def generateMessageVariationsInner (variations : List MessageVariation) :
    Except PyError (List MessageVariation) :=
  match variations with
  | [] => .error .indexError
  | v :: rest => .ok ({ v with problem := none } :: rest)

/-- The suggestion list built from variations by `generate_message_variations`
and `generate_message_variations_blunt` (without per-suggestion feedback). -/
def suggestionsOfVariations (classification : String)
    (messages : List MessageVariation) : List Suggestion :=
  messages.map (fun v =>
    { message := v.content, problem := v.problem,
      objective := some classification })

/-- `generate_message_variations` (lines 96-142) with the external calls as
parameters: `classification` is the result of
`detect_most_compatible_objective` and `genOut` the variation list produced by
the generator.  When `feedback` is true, the source calls `explain_suggestion`
with five of its six arguments, which raises `TypeError` before any suggestion
is built. -/
def generateMessageVariations (classification : String) (feedback : Bool)
    (genOut : List MessageVariation) :
    Except PyError (String × List Suggestion) :=
  match generateMessageVariationsInner genOut with
  | .error e => .error e
  | .ok messages =>
    if feedback then .error .typeError
    else .ok (classification, suggestionsOfVariations classification messages)

/-- `generate_message_variations_blunt` (lines 598-641): the objective is the
fixed string `"blunt-misinterpret"`; the same five-argument
`explain_suggestion` call raises `TypeError` when `feedback` is true. -/
def generateMessageVariationsBlunt (feedback : Bool)
    (genOut : List MessageVariation) :
    Except PyError (String × List Suggestion) :=
  match generateMessageVariationsInner genOut with
  | .error e => .error e
  | .ok messages =>
    if feedback then .error .typeError
    else .ok ("blunt-misinterpret",
              suggestionsOfVariations "blunt-misinterpret" messages)

/-- A concrete record for witnesses: a fresh chat as `create_chat` leaves it
for a non-random user. -/
def sampleChat : ChatData :=
  { agent := "Alex", lastUpdated := 0, suggestionGeneration := "llm",
    suggestions := none, messages := [], state := "no-objective",
    objectivesUsed := [], agentTyping := false, unread := false,
    loadingFeedback := false, generatingSuggestions := 0,
    bestSuggestion := none, currentProblem := none, checkpointRate := false,
    events := [] }

/-- A concrete idle session around `sampleChat`. -/
def sampleState : ChatState := ⟨sampleChat, false, false⟩

/-- Generation outcomes in which the agent-message call fails. -/
def failingAgentGen : AgentGenOutcomes :=
  ⟨.error .generationFailure, .error .generationFailure,
   .error .generationFailure, .error .generationFailure⟩

/-- Generation outcomes in which every call succeeds. -/
def okAgentGen : AgentGenOutcomes :=
  ⟨.ok "Hello!", .ok ⟨"title", "body"⟩, .ok "follow-up", .ok "alt-feedback"⟩

/-- Suggestion-generation outcomes in which every call succeeds. -/
def okSuggestGen : SuggestGenOutcomes :=
  ⟨.ok "base", .ok ("yes-no-question", []), .ok ("blunt-misinterpret", [])⟩

/-- The number of generation calls a transaction body performs. -/
def genCount : List TxEv → Nat
  | [] => 0
  | .generate _ :: rest => genCount rest + 1
  | .markChanged :: rest => genCount rest
  | .sleep :: rest => genCount rest

theorem genHeldFlags_body_append (l : List TxEv) (r : List Ev) :
    genHeldFlags (l.map TxEv.toEv ++ r) true =
      List.replicate (genCount l) true ++ genHeldFlags r true := by
  induction l with
  | nil => simp [genCount]
  | cons e rest ih =>
    cases e <;> simp [TxEv.toEv, genHeldFlags, genCount, ih, List.replicate]

theorem genHeldFlags_txTrace_append (o : TxOut) (r : List Ev) :
    genHeldFlags (txTrace o ++ r) false =
      List.replicate (genCount o.events) true ++ genHeldFlags r false := by
  show genHeldFlags (Ev.acquire :: (o.events.map TxEv.toEv ++
    [Ev.release, Ev.markChanged]) ++ r) false = _
  rw [List.cons_append, List.append_assoc]
  show genHeldFlags (o.events.map TxEv.toEv ++
    (Ev.release :: Ev.markChanged :: r)) true = _
  rw [genHeldFlags_body_append]
  rfl

theorem genHeldFlags_txTrace (o : TxOut) :
    genHeldFlags (txTrace o) false = List.replicate (genCount o.events) true := by
  have h := genHeldFlags_txTrace_append o []
  simpa [genHeldFlags] using h

theorem all_id_replicate_true (n : Nat) :
    (List.replicate n true).all (fun b => b) = true := by
  induction n with
  | zero => rfl
  | succ n ih => simp only [List.replicate, List.all_cons, ih]; rfl

theorem allHeld_txTrace (o : TxOut) :
    (genHeldFlags (txTrace o) false).all (fun b => b) = true := by
  rw [genHeldFlags_txTrace]
  exact all_id_replicate_true _

theorem allHeld_txTrace_append (o o₂ : TxOut) :
    (genHeldFlags (txTrace o ++ txTrace o₂) false).all (fun b => b) = true := by
  rw [genHeldFlags_txTrace_append, List.all_append, genHeldFlags_txTrace]
  simp [all_id_replicate_true]

theorem computeNextState_ne_objective_blunt (st fm : String) (ml : Nat)
    (n : String) (h : computeNextState st fm ml = some n) :
    n ≠ "objective-blunt" := by
  unfold computeNextState at h
  repeat' split at h
  all_goals first
    | exact Option.noConfusion h
    | (injection h with h; subst h; decide)

/-- C3: For every execution of `ChatState.transaction` — whether the body
returns normally, returns early, or raises — the mutual-exclusion lock is
released on exit, the change notification is fired unconditionally on
release, the body's exception (if any) propagates, and the record is the one
the body left behind. -/
theorem transaction_releases_lock_and_notifies :
    ∀ (s : ChatState) (body : ChatData → TxOut),
      (s.transaction body).1.locked = false ∧
      (s.transaction body).1.changed = true ∧
      (s.transaction body).2.error = (body s.chat).error ∧
      (s.transaction body).1.chat = (body s.chat).chat := by
  intro s body
  exact ⟨rfl, rfl, rfl, rfl⟩

/-- C6: a notification fired by `mark_changed` is delivered at most once:
`wait_for_change` completes after a notification, and since the signal is
cleared on wake, a second `wait_for_change` suspends until a new notification
is fired. -/
theorem wait_for_change_at_most_once :
    ∀ s : ChatState, (s.markChanged.waitForChange).isSome = true ∧
      ∀ s', s.markChanged.waitForChange = some s' →
        s'.waitForChange = none := by
  intro s
  constructor
  · simp [ChatState.markChanged, ChatState.waitForChange]
  · intro s' h
    simp only [ChatState.markChanged, ChatState.waitForChange, if_pos] at h
    cases h
    simp [ChatState.waitForChange]

/-- Witness for C6 at a concrete session state: after one notification has
been consumed, the next wait finds the signal cleared and suspends. -/
theorem wait_for_change_at_most_once_witness :
    ChatState.waitForChange { sampleState with changed := false } = none :=
  (wait_for_change_at_most_once sampleState).2
    { sampleState with changed := false } rfl

theorem agentPlan_of_next (st fm : String) (ml : Nat) (used : List String)
    (obj : Option String) (next : String)
    (hc : computeNextState st fm ml = some next) :
    agentPlan st fm ml used obj =
      if bluntCond st used ml then some (some "blunt-initial", "objective-blunt")
      else some (obj, next) := by
  unfold agentPlan
  rw [hc]

/-- C7: the blunt feedback branch preempts the normal objective cycle exactly
when the state is `"no-objective"`, `"blunt"` has not been used, more than 4
messages exist, and at least as many objectives have been used as are
available; exactly then the plan is objective `"blunt-initial"` with next
state `"objective-blunt"`. -/
theorem blunt_preemption_iff :
    ∀ (state feedbackMode : String) (messagesLen : Nat)
      (used : List String) (objective : Option String),
      agentPlan state feedbackMode messagesLen used objective =
        some (some "blunt-initial", "objective-blunt") ↔
      (state = "no-objective" ∧ "blunt" ∉ used ∧ messagesLen > 4 ∧
        used.length ≥ objectives.length) := by
  intro st fm ml used obj
  constructor
  · intro h
    cases hc : computeNextState st fm ml with
    | none =>
      unfold agentPlan at h
      rw [hc] at h
      exact Option.noConfusion h
    | some next =>
      rw [agentPlan_of_next st fm ml used obj next hc] at h
      by_cases hb : bluntCond st used ml
      · exact hb
      · rw [if_neg hb] at h
        injection h with h
        have h2 : next = "objective-blunt" := congrArg Prod.snd h
        exact absurd h2 (computeNextState_ne_objective_blunt st fm ml next hc)
  · intro hb
    obtain ⟨hst, h2, h3, h4⟩ := hb
    subst hst
    have hc : computeNextState "no-objective" fm ml =
        some (if ml > 4 then
                (if objectives.length > 0 then "objective" else "no-objective")
              else "no-objective") := by
      unfold computeNextState
      rw [if_pos rfl]
    rw [agentPlan_of_next _ _ _ _ _ _ hc,
        if_pos (show bluntCond "no-objective" used ml from ⟨rfl, h2, h3, h4⟩)]

/-- C8: the level-1 intro scene's transition is a pure function of the stored
position (its node id) alone: two calls on positions with the same node id
return identical steps, with no hidden state. -/
theorem introNext_pure :
    ∀ d d' : IntroData, d.state = d'.state → introNext d = introNext d' := by
  intro d d' h
  cases d
  cases d'
  cases h
  rfl

/-- Witness for C8: stepping the initial position twice returns identical
results. -/
theorem introNext_pure_witness :
    introNext introInit = introNext ⟨.user_greet⟩ :=
  introNext_pure introInit ⟨.user_greet⟩ rfl

/-- C9: the flow-state table is closed under its successor references — every
`"next"` named in any option or feedback entry is a key of `FLOW_STATES` —
and hence every state `progress_conversation` can reach from `"np_normal"`
(including the hard-coded feedback successors) is found in the table. -/
theorem flow_states_closed_under_next :
    (∀ n ∈ declaredNexts, n ∈ flowKeys) ∧
      (∀ s, FlowReachable s → s ∈ flowKeys) := by
  constructor
  · decide
  · have key : ∀ x ∈ flowKeys, ∀ y ∈ codeSuccessors x, y ∈ flowKeys := by
      decide
    intro s h
    induction h with
    | init => decide
    | step _ hm ih => exact key _ ih _ hm

/-- Witness for C9: the state reached by choosing the first option of
`"np_normal"` is in the table. -/
theorem flow_states_closed_under_next_witness : "ap_normal" ∈ flowKeys :=
  flow_states_closed_under_next.2 "ap_normal"
    (FlowReachable.step FlowReachable.init (by decide))

/-- C10: whenever the variation generator returns a non-empty list, the first
variation's `problem` is overwritten with `None`, so any suggestion list
returned by `generate_message_variations` or
`generate_message_variations_blunt` has a first suggestion whose `problem` is
`None`, regardless of what the generator produced. -/
theorem first_suggestion_problem_none :
    ∀ (classification : String) (feedback : Bool)
      (genOut : List MessageVariation), genOut ≠ [] →
      (∀ cl sugg, generateMessageVariations classification feedback genOut =
          .ok (cl, sugg) → sugg.head?.map Suggestion.problem = some none) ∧
      (∀ cl sugg, generateMessageVariationsBlunt feedback genOut =
          .ok (cl, sugg) → sugg.head?.map Suggestion.problem = some none) := by
  intro classification feedback genOut hne
  cases genOut with
  | nil => exact absurd rfl hne
  | cons v rest =>
    constructor
    · intro cl sugg h
      unfold generateMessageVariations generateMessageVariationsInner at h
      cases feedback with
      | true => simp at h
      | false =>
        simp only [if_neg Bool.false_ne_true] at h
        injection h with h
        injection h with h1 h2
        subst h2
        simp [suggestionsOfVariations]
    · intro cl sugg h
      unfold generateMessageVariationsBlunt generateMessageVariationsInner at h
      cases feedback with
      | true => simp at h
      | false =>
        simp only [if_neg Bool.false_ne_true] at h
        injection h with h
        injection h with h1 h2
        subst h2
        simp [suggestionsOfVariations]

/-- Witness for C10: a concrete generator output whose first variation carries
a problem still yields a first suggestion with `problem = None`. -/
theorem first_suggestion_problem_none_witness :
    ([{ message := "m", problem := none, objective := some "yes-no-question" }]
        : List Suggestion).head?.map Suggestion.problem = some none :=
  (first_suggestion_problem_none "yes-no-question" false
      [⟨some "p", "m"⟩] (by decide)).1 "yes-no-question"
    [{ message := "m", problem := none, objective := some "yes-no-question" }]
    rfl

/-- C5 counterexample: `"np_clarify"` is a declared flow state, yet stepping
it fails — its option references the prompt key `"np_clarify"`, which has no
entry in `PROMPTS`, so `PROMPTS[option["prompt"]]` raises `KeyError`. -/
theorem np_clarify_prompt_missing :
    "np_clarify" ∈ flowKeys ∧ resolvesAllPrompts "np_clarify" = false := by
  decide

/-- C5 (amended): the transition is total over the declared node set except
for `"np_clarify"`: stepping any other declared state resolves every
referenced prompt key to a defined prompt without raising. -/
theorem flow_resolves_all_prompts_except_np_clarify :
    ∀ s ∈ flowKeys, s ≠ "np_clarify" → resolvesAllPrompts s = true := by
  decide

/-- Witness for the amended C5: the initial state `"np_normal"` steps without
failing. -/
theorem flow_resolves_all_prompts_witness :
    resolvesAllPrompts "np_normal" = true :=
  flow_resolves_all_prompts_except_np_clarify "np_normal" (by decide)
    (by decide)

/-- C1 counterexample: a transaction whose body raises (the agent-message
generation call fails inside `_generate_agent_message`) still leaves a
partial mutation behind — the record differs from the pre-transaction record
(`agent_typing` was set before the raise and is never rolled back). -/
theorem aborted_transaction_keeps_partial_mutation :
    ((sampleState.transaction
        (generateAgentMessageBody "on-suggestion" none failingAgentGen 0)
      ).2.error.isSome = true) ∧
    (sampleState.transaction
        (generateAgentMessageBody "on-suggestion" none failingAgentGen 0)
      ).1.chat ≠ sampleChat := by
  decide

/-- C1 (amended): the transaction aborts without rollback but with a
well-defined partial state: when the body of `_generate_agent_message` raises
at the generation call, the record after the transaction equals the
pre-transaction record with `agent_typing` set to true (the one field written
before the raise), and the error propagates to the caller. -/
theorem generation_failure_keeps_only_typing_flag
    (s : ChatState) (fm : String) (objective : Option String)
    (g : AgentGenOutcomes) (now : Nat) (e : PyError)
    (hplan : (agentPlan s.chat.state fm s.chat.messages.length
        s.chat.objectivesUsed objective).isSome = true)
    (hgen : g.agentMessage = .error e) :
    (s.transaction (generateAgentMessageBody fm objective g now)).1.chat =
      { s.chat with agentTyping := true } ∧
    (s.transaction (generateAgentMessageBody fm objective g now)).2.error =
      some .generationFailure := by
  rw [Option.isSome_iff_exists] at hplan
  obtain ⟨⟨obj2, next⟩, hp⟩ := hplan
  constructor <;>
    simp [ChatState.transaction, generateAgentMessageBody, hp, hgen]

/-- Witness for the amended C1 at a concrete record and failing generator. -/
theorem generation_failure_keeps_only_typing_flag_witness :
    (sampleState.transaction
        (generateAgentMessageBody "on-suggestion" none failingAgentGen 0)
      ).1.chat = { sampleChat with agentTyping := true } ∧
    (sampleState.transaction
        (generateAgentMessageBody "on-suggestion" none failingAgentGen 0)
      ).2.error = some .generationFailure :=
  generation_failure_keeps_only_typing_flag sampleState "on-suggestion" none
    failingAgentGen 0 .generationFailure (by decide) rfl

/-- C2 counterexample: applying externally computed results against a record
whose pending suggestion set has been cleared does not raise `StaleApplyError`
— `_send_message` raises `AssertionError` from its `assert` guard instead
(the record is indeed left unchanged). -/
theorem stale_apply_raises_assertion_not_stale_error :
    (sampleState.transaction (sendMessageBody "Ben" 0 0)).2.error =
      some .assertionError ∧
    some PyError.assertionError ≠ some PyError.staleApplyError ∧
    (sampleState.transaction (sendMessageBody "Ben" 0 0)).1.chat =
      sampleChat := by
  decide

/-- C2 (amended): a stale apply against a record whose suggestion set was
cleared is rejected before any field write: `_send_message` raises
`AssertionError` (no `StaleApplyError` exists in the code) and the record is
left unchanged. -/
theorem send_message_stale_rejected_unchanged
    (s : ChatState) (name : String) (now idx : Nat)
    (h : s.chat.suggestions = none) :
    (s.transaction (sendMessageBody name now idx)).2.error =
      some .assertionError ∧
    (s.transaction (sendMessageBody name now idx)).1.chat = s.chat ∧
    (s.transaction (sendMessageBody name now idx)).2.error ≠
      some .staleApplyError := by
  refine ⟨?_, ?_, ?_⟩ <;> simp [ChatState.transaction, sendMessageBody, h]

/-- Witness for the amended C2 at a concrete record with no pending
suggestions. -/
theorem send_message_stale_rejected_unchanged_witness :
    (sampleState.transaction (sendMessageBody "Ben" 0 0)).2.error =
      some .assertionError ∧
    (sampleState.transaction (sendMessageBody "Ben" 0 0)).1.chat =
      sampleChat ∧
    (sampleState.transaction (sendMessageBody "Ben" 0 0)).2.error ≠
      some .staleApplyError :=
  send_message_stale_rejected_unchanged sampleState "Ben" 0 0 rfl

/-- C4 counterexample: at a concrete session, `_generate_agent_message`
issues its generation call while the record's lock IS held — the claim that
generation calls are issued only outside the lock fails (the per-generation
lock-held flags are not all false). -/
theorem generation_outside_lock_false :
    ((genHeldFlags
        (generateAgentMessage "on-suggestion" none okAgentGen okSuggestGen 0
          sampleState).2.2 false).all (fun b => !b)) = false := by
  decide

/-- C4 (amended): every generation call issued by `_generate_agent_message`
(including the gathered feedback/suggestion fan-out) and by
`_suggest_messages` happens while the record's lock is held, inside the
transaction; the results mutate the record within that same transaction. -/
theorem all_generation_under_lock :
    (∀ (fm : String) (objective : Option String) (g : AgentGenOutcomes)
        (gs : SuggestGenOutcomes) (now : Nat) (s : ChatState),
      ((genHeldFlags (generateAgentMessage fm objective g gs now s).2.2
          false).all (fun b => b)) = true) ∧
    (∀ (g : SuggestGenOutcomes) (promptMessage : String) (s : ChatState),
      ((genHeldFlags (suggestMessages g promptMessage s).2.2 false).all
          (fun b => b)) = true) := by
  constructor
  · intro fm objective g gs now s
    unfold generateAgentMessage
    dsimp only [ChatState.transaction]
    split
    · exact allHeld_txTrace _
    · split
      · exact allHeld_txTrace _
      · split
        · split
          · exact allHeld_txTrace_append _ _
          · exact allHeld_txTrace _
        · exact allHeld_txTrace _
  · intro g promptMessage s
    exact allHeld_txTrace _
